import Mathlib

/-!
Verification development for the chi-square goodness-of-fit engine in
`src/python/python/chi2.py` (class `ChiSquareTest` and the domain adapters
`LineDomain`, `PlanarDomain`, `SphericalDomain`).

Modelling conventions:
* floating-point values are modelled by exact rationals (`ℚ`) where the code
  is purely arithmetic, and by reals (`ℝ`) where transcendental functions
  (`pi`, `sqrt`, `sincos`, `atan2`, `**`) appear;
* a possibly non-finite float (e.g. the p-value obtained from `rlgamma`) is
  modelled by `Option ℝ`, `none` standing for a non-finite value;
* the external collaborators `mitsuba.core.math.chi2` (cell pooling, C++)
  and `rlgamma` (regularized lower incomplete gamma, from the sibling
  `math` module) are opaque parameters of the model: every theorem about
  `run` is proved for an arbitrary implementation of those two callables.
-/

namespace Chi2Py

/-- A 2D axis-aligned bounding box (`mitsuba.core.ScalarBoundingBox2f`):
`bmin`/`bmax` are the `min`/`max` corners. -/
structure ScalarBoundingBox2f where
  bmin : ℝ × ℝ
  bmax : ℝ × ℝ

/-- Extents `bounds.extents()`: componentwise `max - min`. -/
def ScalarBoundingBox2f.extents (b : ScalarBoundingBox2f) : ℝ × ℝ :=
  (b.bmax.1 - b.bmin.1, b.bmax.2 - b.bmin.2)

/-- Planar domain adapter `PlanarDomain` (chi2.py lines 369-391): the identity map on the plane,
carrying the bounding box passed at construction. -/
structure PlanarDomain where
  pbounds : ScalarBoundingBox2f

/-- Accessor `PlanarDomain.bounds()`. -/
def PlanarDomain.bounds (d : PlanarDomain) : ScalarBoundingBox2f := d.pbounds

/-- Aspect ratio `PlanarDomain.aspect()` (lines 383-385): `extents.x / extents.y`. -/
noncomputable def PlanarDomain.aspect (d : PlanarDomain) : ℝ :=
  d.pbounds.extents.1 / d.pbounds.extents.2

/-- Bounds `SphericalDomain.bounds()` (lines 397-398):
`ScalarBoundingBox2f([-pi, -1], [pi, 1])`. -/
noncomputable def SphericalDomain.bounds : ScalarBoundingBox2f :=
  ⟨(-Real.pi, -1), (Real.pi, 1)⟩

/-- Aspect ratio `SphericalDomain.aspect()` (lines 400-401): the constant `2`. -/
def SphericalDomain.aspect : ℝ := 2

/-- Clamped square root `ek.safe_sqrt`: square root clamped at zero to avoid NaN on slightly
negative inputs. -/
noncomputable def safe_sqrt (x : ℝ) : ℝ := Real.sqrt (max x 0)

/-- Two-argument arctangent `ek.atan2(y, x)`: the argument of the complex number `x + y i`,
ranging over `(-pi, pi]`. -/
noncomputable def atan2 (y x : ℝ) : ℝ := Complex.arg ⟨x, y⟩

/-- Forward map `SphericalDomain.map_forward` (lines 403-414): maps a point
`p = (phi, -cos theta)` of the parameter rectangle to a 3D point on the
unit sphere.  `cos_theta = -p.y`, `sin_theta = safe_sqrt(fnmadd(c, c, 1))`,
`(sin_phi, cos_phi) = sincos(p.x)`, result
`(cos_phi * sin_theta, sin_phi * sin_theta, cos_theta)`. -/
noncomputable def SphericalDomain.map_forward (p : ℝ × ℝ) : ℝ × ℝ × ℝ :=
  let cos_theta := -p.2
  let sin_theta := safe_sqrt (1 - cos_theta * cos_theta)
  (Real.cos p.1 * sin_theta, Real.sin p.1 * sin_theta, cos_theta)

/-- Backward map `SphericalDomain.map_backward` (lines 416-418):
`Vector2f(atan2(y=p.y, x=p.x), -p.z)`. -/
noncomputable def SphericalDomain.map_backward (q : ℝ × ℝ × ℝ) : ℝ × ℝ :=
  (atan2 q.2.1 q.1, -q.2.2)

/-- The grid resolution constructed in `ChiSquareTest.__init__` (line 93):
`ek.max(ScalarVector2u(res, int(res * domain.aspect())), 1)`, i.e. the
componentwise maximum with 1 of `(res, int(res * aspect))`.  Python `int()`
truncation coincides with the floor for the non-negative products arising
from `aspect() >= 0`. -/
noncomputable def gridRes (res : ℕ) (aspect : ℝ) : ℕ × ℕ :=
  (max res 1, max (Int.toNat ⌊(res : ℝ) * aspect⌋) 1)

/-- The histogram bin index computed in `tabulate_histogram`
(lines 142-151): normalize `xy` by the bounds, scale by the resolution,
clamp into `[0, res - 1]` per axis, truncate to an unsigned integer
(for a clamped non-negative value this is the floor), and flatten as
`x + y * res.x`.  Arguments: resolution `(resx, resy)`, bounds minimum
`bmin`, bounds extents `bext`, and the mapped sample position `p`. -/
def binIndex (resx resy : ℕ) (bmin bext : ℚ × ℚ) (p : ℚ × ℚ) : ℕ :=
  let u := (p.1 - bmin.1) / bext.1 * resx
  let v := (p.2 - bmin.2) / bext.2 * resy
  let cu := min (max u 0) ((resx : ℚ) - 1)
  let cv := min (max v 0) ((resy : ℚ) - 1)
  ⌊cu⌋.toNat + ⌊cv⌋.toNat * resx

/-- Linear spacing `ek.linspace(Float, a, b, n)`: `n` evenly spaced points from `a` to `b`
inclusive. -/
def linspace (a b : ℚ) (n : ℕ) : List ℚ :=
  (List.range n).map (fun i => a + (b - a) * i / ((n : ℚ) - 1))

/-- The per-axis quadrature node offsets of `tabulate_pdf` (lines 186-187):
`ek.linspace(Float, 0, 1, ires) / res_axis`, where `res_axis` is the
resolution of the axis (`self.res.x` or `self.res.y`). -/
def quadNodes (resAxis ires : ℕ) : List ℚ :=
  (linspace 0 1 ires).map (fun t => t / (resAxis : ℚ))

/-- The per-axis quadrature weights of `tabulate_pdf` (lines 188-191):
`ires` copies of `1 / ((ires - 1) * res_axis)` with both endpoint entries
halved. -/
def quadWeights (resAxis ires : ℕ) : List ℚ :=
  (List.range ires).map (fun i =>
    if i = 0 ∨ i = ires - 1 then 1 / (2 * ((ires : ℚ) - 1) * (resAxis : ℚ))
    else 1 / (((ires : ℚ) - 1) * (resAxis : ℚ)))

/-- The width, in parameter-rectangle coordinates, of one histogram cell
along an axis with bounds `[bminAxis, bmaxAxis]` subdivided into `resAxis`
cells. -/
def cellWidth (bminAxis bmaxAxis : ℚ) (resAxis : ℕ) : ℚ :=
  (bmaxAxis - bminAxis) / (resAxis : ℚ)

/-- Horizontal minimum `ek.hmin` on a (non-empty in practice) list of rationals. -/
def hminQ : List ℚ → ℚ
  | [] => 0
  | x :: xs => xs.foldl min x

/-- The final part of `tabulate_pdf` (lines 201-216), starting from the raw
per-cell integral `pdfRaw`: flag failure when `hmin pdf < 0`; flag failure
when `hsum pdf > 1.1 * sample_count`; finally scale the stored array by
`sample_count * hprod(bounds.extents())` (the rectangle area).  Returns the
stored `self.pdf` array and the updated failure flag. -/
def tabulatePdfFinish (pdfRaw : List ℚ) (sample_count area : ℚ) (fail0 : Bool) :
    List ℚ × Bool :=
  let fail1 := fail0 || !(decide (0 ≤ hminQ pdfRaw))
  let fail2 := fail1 || decide (pdfRaw.sum > 11 / 10 * sample_count)
  (pdfRaw.map (fun v => v * (sample_count * area)), fail2)

/-- Output of the external pooling routine `mitsuba.core.math.chi2`
(C++ collaborator, called at lines 260-261): the chi-square statistic, the
degrees of freedom, and the pooled-cell diagnostics. -/
structure Chi2Output where
  chi2val : ℝ
  dof : ℤ
  pooled_in : ℕ
  pooled_out : ℕ

/-- Outcome of `ChiSquareTest.run`: the returned boolean, the `p_value`
attribute (`none` models a non-finite float), and the `fail` attribute as
of the final decision. -/
structure RunOutcome where
  result : Bool
  p_value : Option ℝ
  fail : Bool

/-- The Šidák-corrected significance level computed at lines 287-288:
`1 - (1 - significance_level) ** (1 / test_count)`. -/
noncomputable def sidakLevel (significance_level : ℝ) (test_count : ℕ) : ℝ :=
  1 - (1 - significance_level) ^ ((1 : ℝ) / (test_count : ℝ))

/-- Lines 253-257 of `run`: the cells `(pdf_i, histogram_i)` jointly sorted
by increasing expected frequency `pdf_i` (a stable argsort of `pdf`
followed by gathering both arrays with the same index preserves the
pairing, so it equals a stable sort of the zipped pairs by first
component). -/
noncomputable def sortedPairs (pdf histogram : List ℝ) : List (ℝ × ℝ) :=
  open scoped Classical in
  (pdf.zip histogram).mergeSort (fun a b => decide (a.1 ≤ b.1))

open scoped Classical in
/-- Decision procedure `ChiSquareTest.run` (lines 218-307) from the point where `histogram`
and `pdf` have been tabulated.  `chi2fn` and `rlgamma` are the two opaque
external collaborators; `fail0` is the failure flag accumulated by the
tabulation stages.  Steps: sort cells by expected frequency, call
`chi2fn(histogram_sorted, pdf_sorted, 5)`, flag failure when `dof < 1` or
when some cell has expected frequency 0 but non-zero observed count,
compute `p_value = 1 - rlgamma(dof / 2, chi2val / 2)`, apply the Šidák
correction to the significance level, and reject (return `false`) exactly
when the failure flag is set, or `p_value < corrected level`, or `p_value`
is non-finite. -/
noncomputable def ChiSquareTest.run
    (chi2fn : List ℝ → List ℝ → ℝ → Chi2Output)
    (rlgamma : ℝ → ℝ → Option ℝ)
    (fail0 : Bool) (histogram pdf : List ℝ)
    (significance_level : ℝ) (test_count : ℕ) : RunOutcome :=
  let pairs := sortedPairs pdf histogram
  let out := chi2fn (pairs.map Prod.snd) (pairs.map Prod.fst) 5
  let fail1 := fail0 || decide (out.dof < 1)
  let fail2 := fail1 || decide (∃ q ∈ pairs, q.1 = 0 ∧ q.2 ≠ 0)
  let p_value := Option.map (fun g => 1 - g)
    (rlgamma ((out.dof : ℝ) / 2) (out.chi2val / 2))
  let slevel := sidakLevel significance_level test_count
  let reject := fail2 ||
    (match p_value with
     | none => true
     | some v => decide (v < slevel))
  ⟨!reject, p_value, fail2⟩

/-! ## Theorems -/

/-- C9: for every odd `res ≥ 1` and every aspect ratio `≥ 0`, the grid
resolution built by `ChiSquareTest.__init__` has horizontal dimension
exactly `res` (hence odd) and a strictly positive vertical dimension. -/
theorem gridRes_odd_positive (res : ℕ) (aspect : ℝ)
    (h1 : Odd res) (h2 : 1 ≤ res) (h3 : 0 ≤ aspect) :
    (gridRes res aspect).1 = res ∧ Odd (gridRes res aspect).1 ∧
      1 ≤ (gridRes res aspect).2 := by
  have hx : (gridRes res aspect).1 = res := by
    simp only [gridRes]
    omega
  refine ⟨hx, ?_, ?_⟩
  · rw [hx]; exact h1
  · simp only [gridRes]
    exact le_max_right _ 1

/-- Witness for `gridRes_odd_positive` at the default `res = 101` and the
spherical aspect ratio `2`. -/
theorem gridRes_odd_positive_witness :
    (Odd 101 ∧ 1 ≤ 101 ∧ (0:ℝ) ≤ 2) ∧
      ((gridRes 101 (2:ℝ)).1 = 101 ∧ Odd (gridRes 101 (2:ℝ)).1 ∧
        1 ≤ (gridRes 101 (2:ℝ)).2) :=
  ⟨⟨⟨50, by norm_num⟩, by norm_num, by norm_num⟩,
    gridRes_odd_positive 101 2 ⟨50, by norm_num⟩ (by norm_num) (by norm_num)⟩

/-- C5 (failing input): with the default `PlanarDomain` bounds
`[-1,1] × [-1,1]` (cell width `2` for a 1-cell axis) and `ires = 2`, the
quadrature node offsets built by `tabulate_pdf` are `[0, 1]` — *not*
fractional offsets of the true cell width `2` — and the per-axis weights
sum to `1`, not to the cell width.  The code divides by `res` alone
(line 186-188) where a cell-aligned rule needs `extents/res`, so the claim
holds only for unit-extent rectangles. -/
theorem quadrature_nodes_miss_cell :
    quadNodes 1 2 = [0, 1] ∧ (quadWeights 1 2).sum = 1 ∧
    cellWidth (-1) 1 1 = 2 ∧
    (quadWeights 1 2).sum ≠ cellWidth (-1) 1 1 ∧
    (quadNodes 1 2).getLast? ≠ some (cellWidth (-1) 1 1) := by
  refine ⟨?_, ?_, ?_, ?_, ?_⟩ <;>
    norm_num [quadNodes, quadWeights, linspace, cellWidth, List.range_succ]

/-- C6 (counterexample): a raw one-cell integral of `1` with
`sample_count = 1` and rectangle area `4`.  In final (scaled) units the
density table sums to `4 > 1.1 * sample_count`, yet the failure flag stays
clear, because `tabulate_pdf` (lines 210-216) checks the *raw* sum against
`1.1 * sample_count` before scaling. -/
theorem pdf_mass_check_prescaling_cex :
    (tabulatePdfFinish [1] 1 4 false).2 = false ∧
    11 / 10 * 1 < (tabulatePdfFinish [1] 1 4 false).1.sum := by
  refine ⟨?_, ?_⟩ <;> norm_num [tabulatePdfFinish, hminQ]

/-- C6 (amended): starting from a clear failure flag and a non-negative raw
integral, `tabulate_pdf` sets the failure flag iff the *raw pre-scaling*
sum exceeds `1.1 * sample_count`, and the stored `pdf` array equals the raw
per-cell integral scaled by `sample_count * rectangle_area`. -/
theorem tabulate_pdf_scale_and_mass_check (pdfRaw : List ℚ)
    (sample_count area : ℚ) (fail0 : Bool)
    (h0 : fail0 = false) (h1 : 0 ≤ hminQ pdfRaw) :
    ((tabulatePdfFinish pdfRaw sample_count area fail0).2 = true ↔
      11 / 10 * sample_count < pdfRaw.sum) ∧
    (tabulatePdfFinish pdfRaw sample_count area fail0).1 =
      pdfRaw.map (fun v => v * (sample_count * area)) := by
  subst h0
  refine ⟨?_, rfl⟩
  simp [tabulatePdfFinish, h1]

/-- Witness for `tabulate_pdf_scale_and_mass_check` at a concrete raw
integral. -/
theorem tabulate_pdf_scale_and_mass_check_witness :
    (false = false ∧ 0 ≤ hminQ [2]) ∧
    (((tabulatePdfFinish [2] 1 4 false).2 = true ↔
        11 / 10 * 1 < ([2] : List ℚ).sum) ∧
      (tabulatePdfFinish [2] 1 4 false).1 =
        ([2] : List ℚ).map (fun v => v * (1 * 4))) :=
  ⟨⟨rfl, by norm_num [hminQ]⟩,
    tabulate_pdf_scale_and_mass_check [2] 1 4 false rfl (by norm_num [hminQ])⟩

/-- C7 (counterexample): `SphericalDomain.aspect()` returns `2`, which is
*not* the width/height ratio of the bounding rectangle
`[-pi, pi] × [-1, 1]` returned by `bounds()` (that ratio is `pi`). -/
theorem spherical_aspect_ne_bounds_ratio :
    SphericalDomain.aspect ≠
      SphericalDomain.bounds.extents.1 / SphericalDomain.bounds.extents.2 := by
  have hpi := Real.pi_gt_three
  simp only [SphericalDomain.aspect, SphericalDomain.bounds,
    ScalarBoundingBox2f.extents]
  intro h
  rw [sub_neg_eq_add, sub_neg_eq_add] at h
  nlinarith

/-- C7 (amended): `PlanarDomain.aspect()` is positive and equals the
width/height ratio of its bounding rectangle whenever the bounds are valid
(`min < max` per axis); `SphericalDomain.aspect()` is the positive constant
`2`, which differs from its bounds ratio (see
`spherical_aspect_ne_bounds_ratio`). -/
theorem aspect_positive_ratio (d : PlanarDomain)
    (h1 : d.pbounds.bmin.1 < d.pbounds.bmax.1)
    (h2 : d.pbounds.bmin.2 < d.pbounds.bmax.2) :
    (0 < d.aspect ∧ d.aspect = d.bounds.extents.1 / d.bounds.extents.2) ∧
    (0 < SphericalDomain.aspect ∧ SphericalDomain.aspect = 2) := by
  refine ⟨⟨?_, rfl⟩, by norm_num [SphericalDomain.aspect]⟩
  exact div_pos (sub_pos.mpr h1) (sub_pos.mpr h2)

/-- Witness for `aspect_positive_ratio` at the default planar bounds
`[-1, 1] × [-1, 1]`. -/
theorem aspect_positive_ratio_witness :
    ((PlanarDomain.mk ⟨(-1, -1), (1, 1)⟩).pbounds.bmin.1 <
        (PlanarDomain.mk ⟨(-1, -1), (1, 1)⟩).pbounds.bmax.1 ∧
      (PlanarDomain.mk ⟨(-1, -1), (1, 1)⟩).pbounds.bmin.2 <
        (PlanarDomain.mk ⟨(-1, -1), (1, 1)⟩).pbounds.bmax.2) ∧
    ((0 < (PlanarDomain.mk ⟨(-1, -1), (1, 1)⟩).aspect ∧
        (PlanarDomain.mk ⟨(-1, -1), (1, 1)⟩).aspect =
          (PlanarDomain.mk ⟨(-1, -1), (1, 1)⟩).bounds.extents.1 /
            (PlanarDomain.mk ⟨(-1, -1), (1, 1)⟩).bounds.extents.2) ∧
      (0 < SphericalDomain.aspect ∧ SphericalDomain.aspect = 2)) :=
  ⟨⟨by norm_num, by norm_num⟩,
    aspect_positive_ratio ⟨⟨(-1, -1), (1, 1)⟩⟩ (by norm_num) (by norm_num)⟩

/-- C10: for any positive grid resolution, any bounds, and *any* mapped
sample position (arbitrarily far outside the bounds), the flattened bin
index computed by `tabulate_histogram` is strictly below `resx * resy`:
the per-axis clamp into `[0, res - 1]` before integer conversion keeps
every scatter-add inside the histogram array. -/
theorem binIndex_lt (resx resy : ℕ) (h1 : 1 ≤ resx) (h2 : 1 ≤ resy)
    (bmin bext : ℚ × ℚ) (p : ℚ × ℚ) :
    binIndex resx resy bmin bext p < resx * resy := by
  unfold binIndex
  obtain ⟨rx, rfl⟩ : ∃ rx, resx = rx + 1 := ⟨resx - 1, by omega⟩
  obtain ⟨ry, rfl⟩ : ∃ ry, resy = ry + 1 := ⟨resy - 1, by omega⟩
  have hcu : ∀ u : ℚ, (⌊min (max u 0) ((rx + 1 : ℕ) - 1 : ℚ)⌋).toNat ≤ rx := by
    intro u
    have heq : ((rx + 1 : ℕ) - 1 : ℚ) = ((rx : ℤ) : ℚ) := by push_cast; ring
    have hle : min (max u 0) ((rx + 1 : ℕ) - 1 : ℚ) ≤ ((rx : ℤ) : ℚ) := by
      rw [heq]; exact min_le_right _ _
    have hf := Int.floor_le_floor hle
    rw [Int.floor_intCast] at hf
    omega
  have hcv : ∀ v : ℚ, (⌊min (max v 0) ((ry + 1 : ℕ) - 1 : ℚ)⌋).toNat ≤ ry := by
    intro v
    have heq : ((ry + 1 : ℕ) - 1 : ℚ) = ((ry : ℤ) : ℚ) := by push_cast; ring
    have hle : min (max v 0) ((ry + 1 : ℕ) - 1 : ℚ) ≤ ((ry : ℤ) : ℚ) := by
      rw [heq]; exact min_le_right _ _
    have hf := Int.floor_le_floor hle
    rw [Int.floor_intCast] at hf
    omega
  have ha := hcu ((p.1 - bmin.1) / bext.1 * (rx + 1 : ℕ))
  have hb := hcv ((p.2 - bmin.2) / bext.2 * (ry + 1 : ℕ))
  set a := (⌊min (max ((p.1 - bmin.1) / bext.1 * (rx + 1 : ℕ)) 0)
    ((rx + 1 : ℕ) - 1 : ℚ)⌋).toNat
  set b := (⌊min (max ((p.2 - bmin.2) / bext.2 * (ry + 1 : ℕ)) 0)
    ((ry + 1 : ℕ) - 1 : ℚ)⌋).toNat
  calc a + b * (rx + 1) ≤ rx + ry * (rx + 1) := by
        exact Nat.add_le_add ha (Nat.mul_le_mul_right _ hb)
    _ < (rx + 1) * (ry + 1) := by nlinarith

/-- Witness for `binIndex_lt`: a 1×1 grid with unit bounds and a sample far
outside the rectangle still lands inside the histogram. -/
theorem binIndex_lt_witness :
    (1 ≤ 1 ∧ 1 ≤ 1) ∧ binIndex 1 1 (0, 0) (1, 1) (5, 7) < 1 * 1 :=
  ⟨⟨le_refl 1, le_refl 1⟩, binIndex_lt 1 1 (le_refl 1) (le_refl 1) (0, 0) (1, 1) (5, 7)⟩

open scoped Classical in
/-- The final accept/reject decision of `run`, written as a boolean over an
abstract failure flag, p-value and corrected significance level: rejected
exactly when the flag is set, or the p-value is below the level, or the
p-value is non-finite. -/
theorem runDecision_false_iff (fl : Bool) (pv : Option ℝ) (sl : ℝ) :
    (!(fl || (match pv with
              | none => true
              | some v => decide (v < sl)))) = false ↔
      (fl = true ∨ (∃ v, pv = some v ∧ v < sl) ∨ pv = none) := by
  cases fl <;> cases pv <;> simp

open scoped Classical in
/-- Companion to `runDecision_false_iff` for the accepting case. -/
theorem runDecision_true_iff (fl : Bool) (pv : Option ℝ) (sl : ℝ) :
    (!(fl || (match pv with
              | none => true
              | some v => decide (v < sl)))) = true ↔
      (fl = false ∧ ∃ v, pv = some v ∧ ¬(v < sl)) := by
  cases fl <;> cases pv <;> simp

/-- C1: `run` returns `False` exactly when the failure flag (as of the
final decision) is set, or the computed p-value is strictly below the
Šidák-corrected significance level, or the p-value is non-finite; in every
other case it returns `True`. -/
theorem run_false_iff (chi2fn : List ℝ → List ℝ → ℝ → Chi2Output)
    (rlgamma : ℝ → ℝ → Option ℝ) (fail0 : Bool) (histogram pdf : List ℝ)
    (significance_level : ℝ) (test_count : ℕ) :
    (ChiSquareTest.run chi2fn rlgamma fail0 histogram pdf
        significance_level test_count).result = false ↔
      ((ChiSquareTest.run chi2fn rlgamma fail0 histogram pdf
          significance_level test_count).fail = true ∨
       (∃ v, (ChiSquareTest.run chi2fn rlgamma fail0 histogram pdf
          significance_level test_count).p_value = some v ∧
          v < sidakLevel significance_level test_count) ∨
       (ChiSquareTest.run chi2fn rlgamma fail0 histogram pdf
          significance_level test_count).p_value = none) := by
  simp only [ChiSquareTest.run]
  exact runDecision_false_iff _ _ _

/-- C2: whenever some cell pairs an expected frequency (pdf) of zero with a
non-zero observed count, `run` rejects, regardless of the chi-square
statistic, the significance level and the pooling output. -/
theorem run_zero_expected_rejects (chi2fn : List ℝ → List ℝ → ℝ → Chi2Output)
    (rlgamma : ℝ → ℝ → Option ℝ) (fail0 : Bool) (histogram pdf : List ℝ)
    (significance_level : ℝ) (test_count : ℕ)
    (h : ∃ q ∈ pdf.zip histogram, q.1 = 0 ∧ q.2 ≠ 0) :
    (ChiSquareTest.run chi2fn rlgamma fail0 histogram pdf
        significance_level test_count).result = false := by
  have hmem : ∃ q ∈ sortedPairs pdf histogram, q.1 = 0 ∧ q.2 ≠ 0 := by
    obtain ⟨q, hq, hq2⟩ := h
    exact ⟨q, (List.mergeSort_perm _ _).mem_iff.mpr hq, hq2⟩
  simp only [ChiSquareTest.run]
  rw [decide_eq_true hmem]
  simp

/-- Witness for `run_zero_expected_rejects`: `pdf = [0, 5]`,
`histogram = [1, 5]` — cell 0 has expected frequency 0 but observed
count 1 — with arbitrary concrete collaborators. -/
theorem run_zero_expected_rejects_witness :
    (∃ q ∈ ([(0 : ℝ), 5].zip [(1 : ℝ), 5]), q.1 = 0 ∧ q.2 ≠ 0) ∧
    (ChiSquareTest.run (fun _ _ _ => ⟨0, 1, 0, 0⟩) (fun _ _ => some (1 / 2))
        false [(1 : ℝ), 5] [(0 : ℝ), 5] (1 / 2) 1).result = false :=
  ⟨⟨(0, 1), by simp, by norm_num⟩,
    run_zero_expected_rejects _ _ _ _ _ _ _ ⟨(0, 1), by simp, by norm_num⟩⟩

/-- Numeric bounds for the Šidák-corrected level at
`significance_level = 0.05`, `test_count = 2`:
`1 - 0.95 ^ (1/2)` lies strictly between `0.0253` and `0.0254`. -/
theorem sidakLevel_bounds :
    253 / 10000 < sidakLevel (1 / 20) 2 ∧ sidakLevel (1 / 20) 2 < 254 / 10000 := by
  have hs : sidakLevel (1 / 20) 2 = 1 - Real.sqrt (19 / 20) := by
    rw [sidakLevel, show ((1 : ℝ) - 1 / 20) = 19 / 20 by norm_num,
      show ((1 : ℝ) / ((2 : ℕ) : ℝ)) = 1 / 2 by norm_num,
      ← Real.sqrt_eq_rpow]
  constructor
  · rw [hs]
    have hlt : Real.sqrt (19 / 20) < 9747 / 10000 := by
      rw [show (9747 / 10000 : ℝ) = Real.sqrt ((9747 / 10000) ^ 2) from
        (Real.sqrt_sq (by norm_num)).symm]
      exact Real.sqrt_lt_sqrt (by norm_num) (by norm_num)
    linarith
  · rw [hs]
    have hlt : 9746 / 10000 < Real.sqrt (19 / 20) := by
      rw [show (9746 / 10000 : ℝ) = Real.sqrt ((9746 / 10000) ^ 2) from
        (Real.sqrt_sq (by norm_num)).symm]
      exact Real.sqrt_lt_sqrt (by norm_num) (by norm_num)
    linarith

/-- C3: for every significance level in `(0,1)` and `test_count ≥ 1`,
`run` accepts exactly when no failure was flagged and the (finite) p-value
is not below the corrected level `1 - (1 - α) ^ (1 / test_count)`
(`sidakLevel`); and at `α = 0.05`, `test_count = 2` the corrected level
lies strictly between `0.0253` and `0.0254`. -/
theorem run_sidak_threshold (chi2fn : List ℝ → List ℝ → ℝ → Chi2Output)
    (rlgamma : ℝ → ℝ → Option ℝ) (fail0 : Bool) (histogram pdf : List ℝ)
    (significance_level : ℝ) (test_count : ℕ)
    (h1 : 0 < significance_level) (h2 : significance_level < 1)
    (h3 : 1 ≤ test_count) :
    ((ChiSquareTest.run chi2fn rlgamma fail0 histogram pdf
        significance_level test_count).result = true ↔
      ((ChiSquareTest.run chi2fn rlgamma fail0 histogram pdf
          significance_level test_count).fail = false ∧
        ∃ v, (ChiSquareTest.run chi2fn rlgamma fail0 histogram pdf
          significance_level test_count).p_value = some v ∧
          ¬(v < sidakLevel significance_level test_count))) ∧
    (253 / 10000 < sidakLevel (1 / 20) 2 ∧
      sidakLevel (1 / 20) 2 < 254 / 10000) := by
  refine ⟨?_, sidakLevel_bounds⟩
  simp only [ChiSquareTest.run]
  exact runDecision_true_iff _ _ _

/-- Witness for `run_sidak_threshold` at `α = 0.05`, `test_count = 2` and
concrete collaborators. -/
theorem run_sidak_threshold_witness :
    ((0 : ℝ) < 1 / 20 ∧ (1 / 20 : ℝ) < 1 ∧ 1 ≤ 2) ∧
    (((ChiSquareTest.run (fun _ _ _ => ⟨0, 1, 0, 0⟩) (fun _ _ => some 1)
        false [] [] (1 / 20) 2).result = true ↔
      ((ChiSquareTest.run (fun _ _ _ => ⟨0, 1, 0, 0⟩) (fun _ _ => some 1)
          false [] [] (1 / 20) 2).fail = false ∧
        ∃ v, (ChiSquareTest.run (fun _ _ _ => ⟨0, 1, 0, 0⟩)
          (fun _ _ => some 1) false [] [] (1 / 20) 2).p_value = some v ∧
          ¬(v < sidakLevel (1 / 20) 2))) ∧
    (253 / 10000 < sidakLevel (1 / 20) 2 ∧
      sidakLevel (1 / 20) 2 < 254 / 10000)) :=
  ⟨⟨by norm_num, by norm_num, by norm_num⟩,
    run_sidak_threshold _ _ _ _ _ _ _ (by norm_num) (by norm_num) (by norm_num)⟩

/-- C4: the `p_value` attribute set by `run` is exactly
`1 - rlgamma(dof / 2, chi2val / 2)` where `dof` and `chi2val` are produced
by the (opaque) pooling evaluator on the sorted arrays — stated for every
implementation `rlgamma` of the regularized lower incomplete gamma
function, in particular the true one. -/
theorem run_p_value_formula (chi2fn : List ℝ → List ℝ → ℝ → Chi2Output)
    (rlgamma : ℝ → ℝ → Option ℝ) (fail0 : Bool) (histogram pdf : List ℝ)
    (significance_level : ℝ) (test_count : ℕ)
    (h1 : 0 ≤ (chi2fn ((sortedPairs pdf histogram).map Prod.snd)
        ((sortedPairs pdf histogram).map Prod.fst) 5).chi2val)
    (h2 : 1 ≤ (chi2fn ((sortedPairs pdf histogram).map Prod.snd)
        ((sortedPairs pdf histogram).map Prod.fst) 5).dof) :
    (ChiSquareTest.run chi2fn rlgamma fail0 histogram pdf
        significance_level test_count).p_value =
      Option.map (fun g => 1 - g)
        (rlgamma
          (((chi2fn ((sortedPairs pdf histogram).map Prod.snd)
              ((sortedPairs pdf histogram).map Prod.fst) 5).dof : ℝ) / 2)
          ((chi2fn ((sortedPairs pdf histogram).map Prod.snd)
              ((sortedPairs pdf histogram).map Prod.fst) 5).chi2val / 2)) := by
  simp only [ChiSquareTest.run]

/-- Witness for `run_p_value_formula` with a pooling stub returning
`chi2val = 0`, `dof = 1`. -/
theorem run_p_value_formula_witness :
    (0 ≤ ((fun (_ _ : List ℝ) (_ : ℝ) => (⟨0, 1, 0, 0⟩ : Chi2Output))
        ((sortedPairs [] []).map Prod.snd)
        ((sortedPairs [] []).map Prod.fst) 5).chi2val ∧
      1 ≤ ((fun (_ _ : List ℝ) (_ : ℝ) => (⟨0, 1, 0, 0⟩ : Chi2Output))
        ((sortedPairs [] []).map Prod.snd)
        ((sortedPairs [] []).map Prod.fst) 5).dof) ∧
    (ChiSquareTest.run (fun _ _ _ => ⟨0, 1, 0, 0⟩) (fun _ _ => some 1)
        false [] [] (1 / 20) 1).p_value =
      Option.map (fun g => 1 - g)
        ((fun (_ _ : ℝ) => some 1)
          ((((fun (_ _ : List ℝ) (_ : ℝ) => (⟨0, 1, 0, 0⟩ : Chi2Output))
              ((sortedPairs [] []).map Prod.snd)
              ((sortedPairs [] []).map Prod.fst) 5).dof : ℝ) / 2)
          (((fun (_ _ : List ℝ) (_ : ℝ) => (⟨0, 1, 0, 0⟩ : Chi2Output))
              ((sortedPairs [] []).map Prod.snd)
              ((sortedPairs [] []).map Prod.fst) 5).chi2val / 2)) :=
  ⟨⟨by norm_num, by norm_num⟩,
    run_p_value_formula (fun _ _ _ => ⟨0, 1, 0, 0⟩) (fun _ _ => some 1)
      false [] [] (1 / 20) 1 (by norm_num) (by norm_num)⟩

/-- C8: for every point strictly inside the open parameter rectangle
`(-pi, pi) × (-1, 1)` (poles excluded), mapping forward onto the sphere
and back recovers the point exactly (in the exact-real model; the code's
float version agrees up to rounding). -/
theorem spherical_roundtrip (φ y : ℝ) (h1 : -Real.pi < φ) (h2 : φ < Real.pi)
    (h3 : -1 < y) (h4 : y < 1) :
    SphericalDomain.map_backward (SphericalDomain.map_forward (φ, y)) = (φ, y) := by
  have hyy : (0 : ℝ) < 1 - -y * -y := by nlinarith
  have hs : safe_sqrt (1 - -y * -y) = Real.sqrt (1 - -y * -y) := by
    rw [safe_sqrt, max_eq_left hyy.le]
  have hspos : 0 < safe_sqrt (1 - -y * -y) := by
    rw [hs]; exact Real.sqrt_pos.mpr hyy
  simp only [SphericalDomain.map_forward, SphericalDomain.map_backward]
  refine Prod.ext ?_ (by simp)
  show atan2 (Real.sin φ * safe_sqrt (1 - -y * -y))
      (Real.cos φ * safe_sqrt (1 - -y * -y)) = φ
  have hc : (⟨Real.cos φ * safe_sqrt (1 - -y * -y),
      Real.sin φ * safe_sqrt (1 - -y * -y)⟩ : ℂ) =
      (safe_sqrt (1 - -y * -y) : ℝ) *
        (Complex.cos φ + Complex.sin φ * Complex.I) := by
    apply Complex.ext <;>
      simp [Complex.cos_ofReal_re, Complex.sin_ofReal_re,
        Complex.cos_ofReal_im, Complex.sin_ofReal_im] <;>
      ring
  rw [atan2, hc, Complex.arg_real_mul _ hspos,
    Complex.arg_cos_add_sin_mul_I ⟨h1, h2.le⟩]

/-- Witness for `spherical_roundtrip` at the rectangle center `(0, 0)`
(the equator point `(1, 0, 0)` on the sphere). -/
theorem spherical_roundtrip_witness :
    (-Real.pi < 0 ∧ (0 : ℝ) < Real.pi ∧ (-1 : ℝ) < 0 ∧ (0 : ℝ) < 1) ∧
      SphericalDomain.map_backward (SphericalDomain.map_forward (0, 0)) = (0, 0) :=
  ⟨⟨neg_lt_zero.mpr Real.pi_pos, Real.pi_pos, by norm_num, by norm_num⟩,
    spherical_roundtrip 0 0 (neg_lt_zero.mpr Real.pi_pos) Real.pi_pos
      (by norm_num) (by norm_num)⟩

end Chi2Py
